import Mathlib

/-!
A verification development for the notebook document model of the
data-forge-notebook repository.

The definitions below are a shallow embedding of the TypeScript sources:

- `NotebookViewModel` (view-model/notebook.ts): the notebook document
  view-model — cells list, add/delete/move, serialization, save/saveAs,
  evaluation lifecycle flags.
- `NotebookEditorViewModel` (view-model/notebook-editor.ts): the editor
  orchestration — evaluate dispatch and evaluator event routing.

JavaScript arrays are modelled as `List`; `undefined`-able values as
`Option`; thrown exceptions as an explicit error component of the result;
`async` methods as plain state-passing functions (the code is
single-threaded and each method runs to completion for the properties
considered here).  Methods of the two classes are modelled as functions on
explicit state structures.  Cell view-model classes (`CodeCellViewModel`,
`MarkdownCellViewModel`) are not in the source tree; the few cell-level
operations needed (serialize/deserialize/addError) are modelled from the
spec and marked as such.
-/

namespace DataForge

/-- CellType (model package): Code | Markdown. -/
inductive CellType
  | code
  | markdown
deriving DecidableEq

/-- Modelled from the spec: the cell view-model classes (code-cell.ts,
markdown-cell.ts) are not in the source tree.  Per the spec's data model a
cell owns a unique `id`, its `cellType`, its source text, and (for code
cells) ordered errors; an `executing` flag tracks evaluation.  Markdown
cells simply leave `errors` empty. -/
structure Cell where
  id : String
  cellType : CellType
  text : String
  executing : Bool
  errors : List String
deriving DecidableEq

/-- Modelled from the spec: the serialized form of a cell
(`ISerializedCell1`), carrying the persistent fields of `Cell`
(`executing` is transient and not serialized). -/
structure SerializedCell where
  id : String
  cellType : CellType
  text : String
  errors : List String
deriving DecidableEq

/-- Modelled from the spec: `CellViewModel.serialize` keeps id, type,
text and errors. -/
def Cell.serialize (c : Cell) : SerializedCell :=
  { id := c.id, cellType := c.cellType, text := c.text, errors := c.errors }

/-- Modelled from the spec: `CellViewModel.deserialize` restores the
persistent fields; a freshly loaded cell is not executing. -/
def Cell.deserialize (s : SerializedCell) : Cell :=
  { id := s.id, cellType := s.cellType, text := s.text,
    executing := false, errors := s.errors }

/-- `cellViewModelFactory` (view-model/notebook.ts): dispatches on the
cell type to the matching deserializer.  In the typed model both branches
use the modelled `Cell.deserialize`; the source's throw on an unexpected
cell type is unreachable because `CellType` has exactly these two
constructors. -/
def cellViewModelFactory (cell : SerializedCell) : Cell :=
  match cell.cellType with
  | CellType.code => Cell.deserialize cell
  | CellType.markdown => Cell.deserialize cell

/-- JavaScript `x || d` for an optional string: `undefined` and the empty
string are falsy and select the default. -/
def jsOr (x : Option String) (d : String) : String :=
  match x with
  | none => d
  | some s => if s = "" then d else s

/-- NotebookViewModel.moveCell (view-model/notebook.ts):

`const [movedCell] = reorderedCells.splice(sourceIndex, 1);`
`reorderedCells.splice(destIndex, 0, movedCell);`

The JS array's slots can hold `undefined` (which `splice` yields for an
out-of-range source index and then happily re-inserts), so the element
type is `Option β` with `none` playing `undefined`.  `splice(i, 1)`
removes the element at `i` when in range (`take i ++ drop (i+1)`), and
the splice insertion index is clamped to the array length, which
`take`/`drop` do naturally. -/
def moveCell (cells : List (Option β)) (sourceIndex destIndex : Nat) :
    List (Option β) :=
  let movedCell := (cells.get? sourceIndex).getD none
  let removed := cells.take sourceIndex ++ cells.drop (sourceIndex + 1)
  removed.take destIndex ++ movedCell :: removed.drop destIndex

/-- Errors thrown by the notebook view-model, classified by the spec's
error taxonomy.  The source throws plain `Error` objects (or, for
`deleteCell` on an absent id, fails dereferencing `undefined`); each
constructor names the distinct failure path it models. -/
inductive NbError
  | outOfRange
  | notFound
  | readOnlyViolation
  | neverSaved
  | ioError
deriving DecidableEq

/-- The mutable state of `NotebookViewModel` (view-model/notebook.ts).
`hookedCells` records, in attach order, the ids of the cells whose event
sources currently have the notebook's handlers attached
(`hookCellEvents`/`unhookCellEvents`); `selectedCell` and the event
sources themselves are view-level and not needed by the properties
below. -/
structure Notebook where
  storageId : String
  instanceId : String
  nodejsVersion : Option String
  language : String
  description : Option String
  cells : List Cell
  executing : Bool
  modified : Bool
  defaultNodejsVersion : String
  unsaved : Bool
  readOnly : Bool
  hookedCells : List String
deriving DecidableEq

/-- NotebookViewModel.hookCellEvents: attaches the notebook's four
handlers to the cell's event sources; modelled as recording the cell's
id. -/
def Notebook.hookCellEvents (nb : Notebook) (cell : Cell) : Notebook :=
  { nb with hookedCells := nb.hookedCells ++ [cell.id] }

/-- NotebookViewModel.unhookCellEvents: detaches the handlers again. -/
def Notebook.unhookCellEvents (nb : Notebook) (cell : Cell) : Notebook :=
  { nb with hookedCells := nb.hookedCells.erase cell.id }

/-- The NotebookViewModel constructor: stores the fields, clears
`modified`, and hooks every cell's events.  The source generates
`instanceId` with `uuid()`; generation is abstracted as the `instanceId`
argument. -/
def mkNotebook (notebookStorageId : String) (instanceId : String)
    (nodejsVersion : Option String) (language : String) (cells : List Cell)
    (description : Option String) (unsaved readOnly : Bool)
    (defaultNodeJsVersion : String) : Notebook :=
  { storageId := notebookStorageId
    instanceId := instanceId
    nodejsVersion := nodejsVersion
    language := language
    description := description
    cells := cells
    executing := false
    modified := false
    defaultNodejsVersion := defaultNodeJsVersion
    unsaved := unsaved
    readOnly := readOnly
    hookedCells := cells.map Cell.id }

/-- NotebookViewModel.addCell: hooks the cell's events, flushes changes
(event raising only), then checks the bounds and either throws
`Bad index ...` or splices the cell in at `cellIndex` and marks the
notebook modified.  Note the source hooks the cell's events before the
bounds check, so a rejected cell is still hooked. -/
def Notebook.addCell (nb : Notebook) (cellViewModel : Cell)
    (cellIndex : Nat) : Notebook × Option NbError :=
  let nb1 := nb.hookCellEvents cellViewModel
  if cellIndex > nb1.cells.length then
    (nb1, some NbError.outOfRange)
  else
    let nb2 := { nb1 with
      cells := nb1.cells.take cellIndex ++
        cellViewModel :: nb1.cells.drop cellIndex }
    ({ nb2 with modified := true }, none)

/-- NotebookViewModel.deleteCell: filters out every cell whose id equals
the given cell's id, unhooking the first match beforehand.  When no cell
matches, `cellsRemoved[0]` is `undefined` and unhooking it throws — the
spec's `NotFound` — before any mutation.  The next-cell selection policy
only drives `select()` on the remaining cell (view-level) and does not
change the state modelled here. -/
def Notebook.deleteCell (nb : Notebook) (cell : Cell)
    (_selectNextCell : Bool) : Notebook × Option NbError :=
  let cellId := cell.id
  match nb.cells.filter (fun c => c.id = cellId) with
  | [] => (nb, some NbError.notFound)
  | first :: _ =>
    let nb1 := nb.unhookCellEvents first
    let nb2 := { nb1 with cells := nb1.cells.filter (fun c => ¬c.id = cellId) }
    ({ nb2 with modified := true }, none)

/-- NotebookViewModel.findCellIndex: linear scan for the first cell with
the given id (the source's while-loop, written recursively). -/
def findCellIndexList : List Cell → String → Option Nat
  | [], _ => none
  | c :: rest, cellId =>
    if c.id = cellId then some 0
    else (findCellIndexList rest cellId).map (· + 1)

/-- NotebookViewModel.findCell: the cell at the found index, if any. -/
def Notebook.findCell (nb : Notebook) (cellId : String) : Option Cell :=
  match findCellIndexList nb.cells cellId with
  | none => none
  | some i => nb.cells.get? i

/-- NotebookViewModel.getNodejsVersion:
`this.nodejsVersion || this.defaultNodejsVersion`. -/
def Notebook.getNodejsVersion (nb : Notebook) : String :=
  jsOr nb.nodejsVersion nb.defaultNodejsVersion

/-- The `sheet` wrapper of a version-2 serialized notebook
(`ISerializedNotebook1.sheet`). -/
structure Sheet where
  language : Option String
  cells : Option (List SerializedCell)
deriving DecidableEq

/-- `ISerializedNotebook1` (model package): the on-disk document.  A
version-3 document carries `language`/`cells` flat; a version-2 document
carries them inside `sheet`.  Optional fields are `Option`. -/
structure SerializedNotebook where
  version : Nat
  nodejs : Option String
  language : Option String
  description : Option String
  cells : Option (List SerializedCell)
  sheet : Option Sheet
deriving DecidableEq

/-- `notebookVersion = 3` (view-model/notebook.ts). -/
def notebookVersion : Nat := 3

/-- NotebookViewModel.serialize: the full current-version document (no
`sheet` field in the output shape). -/
def Notebook.serialize (nb : Notebook) : SerializedNotebook :=
  { version := notebookVersion
    nodejs := nb.nodejsVersion
    language := some nb.language
    description := nb.description
    cells := some (nb.cells.map Cell.serialize)
    sheet := none }

/-- NotebookViewModel.deserialize: a document with a `sheet` wrapper
(version 2) reads `language`/`cells` from the sheet, otherwise from the
flat fields; `language || "javascript"` and
`cells && cells.map(cellViewModelFactory) || []` apply the defaults.
The result is a freshly constructed notebook. -/
def Notebook.deserialize (notebookStorageId : String) (instanceId : String)
    (unsaved readOnly : Bool) (defaultNodejsVersion : String)
    (input : SerializedNotebook) : Notebook :=
  let language : String :=
    match input.sheet with
    | some sheet => jsOr sheet.language "javascript"
    | none => jsOr input.language "javascript"
  let cells : List Cell :=
    match input.sheet with
    | some sheet =>
      match sheet.cells with
      | some cs => cs.map cellViewModelFactory
      | none => []
    | none =>
      match input.cells with
      | some cs => cs.map cellViewModelFactory
      | none => []
  mkNotebook notebookStorageId instanceId input.nodejs language cells
    input.description unsaved readOnly defaultNodejsVersion

/-- NotebookViewModel._save: flush changes (event raising), serialize,
write to the repository, then clear the modified flag.  The storage
collaborator is external; its success or failure is the `writeOk`
argument, and a failed write throws out of `_save` before
`clearModified` runs. -/
def Notebook.internalSave (nb : Notebook) (writeOk : Bool) :
    Notebook × Option NbError :=
  if writeOk then ({ nb with modified := false }, none)
  else (nb, some NbError.ioError)

/-- NotebookViewModel.save: throws the read-only guard first, then the
never-saved guard, then delegates to `_save` on the current
`storageId`. -/
def Notebook.save (nb : Notebook) (writeOk : Bool) :
    Notebook × Option NbError :=
  if nb.readOnly then (nb, some NbError.readOnlyViolation)
  else if nb.unsaved then (nb, some NbError.neverSaved)
  else nb.internalSave writeOk

/-- NotebookViewModel.saveAs: `_save` to the new storage id; only after
the write has succeeded are `unsaved` cleared, `storageId` rebound and
`readOnly` cleared.  A write failure propagates before any of those
assignments run. -/
def Notebook.saveAs (nb : Notebook) (newNotebookId : String)
    (writeOk : Bool) : Notebook × Option NbError :=
  match nb.internalSave writeOk with
  | (nb1, none) =>
    ({ nb1 with unsaved := false, storageId := newNotebookId,
                readOnly := false }, none)
  | (nb1, some e) => (nb1, some e)

/-- NotebookViewModel.notifyCodeEvalStarted: sets `executing`; the
per-cell `notifyNotebookEvalStarted` touches only cell view state not
modelled here. -/
def Notebook.notifyCodeEvalStarted (nb : Notebook) : Notebook :=
  { nb with executing := true }

/-- NotebookViewModel.notifyCodeEvalComplete: clears `executing` and
makes sure no cell is still marked as executing. -/
def Notebook.notifyCodeEvalComplete (nb : Notebook) : Notebook :=
  { nb with executing := false
            cells := nb.cells.map (fun c => { c with executing := false }) }

/-- Commands the editor sends to the evaluation engine
(`IEvaluatorClient`). -/
inductive EngineCmd
  | stopEvaluation (instanceId : String)
  | evalNotebook (instanceId : String)
  | evalToCell (instanceId : String) (cellId : String)
  | evalSingleCell (instanceId : String) (cellId : String)
deriving DecidableEq

/-- The state of `NotebookEditorViewModel`
(view-model/notebook-editor.ts) needed for evaluation dispatch: the
currently open notebook and the busy counter `working`. -/
structure Editor where
  notebook : Option Notebook
  working : Nat
deriving DecidableEq

/-- NotebookEditorViewModel.isWorking: `this.working > 0`. -/
def Editor.isWorking (ed : Editor) : Bool :=
  ed.working > 0

/-- NotebookEditorViewModel.checkCanEvaluateNotebook: already working,
no notebook open, or a read-only notebook each abort with a warning. -/
def Editor.checkCanEvaluateNotebook (ed : Editor) : Bool :=
  if ed.isWorking then false
  else
    match ed.notebook with
    | none => false
    | some nb => if nb.readOnly then false else true

/-- NotebookEditorViewModel.evaluateNotebook: after the shared
precondition check, an already-executing notebook gets
`stopEvaluation` plus a synthesized completion
(`onEvaluationFinished` → `notifyCodeEvalComplete`); otherwise the
notebook is flushed, dispatched with `evalNotebook`, and marked started.
The second component lists the engine commands issued. -/
def Editor.evaluateNotebook (ed : Editor) : Editor × List EngineCmd :=
  if ¬ed.checkCanEvaluateNotebook then (ed, [])
  else
    match ed.notebook with
    | none => (ed, [])
    | some nb =>
      if nb.executing then
        ({ ed with notebook := some nb.notifyCodeEvalComplete },
         [EngineCmd.stopEvaluation nb.instanceId])
      else
        ({ ed with notebook := some nb.notifyCodeEvalStarted },
         [EngineCmd.evalNotebook nb.instanceId])

/-- NotebookEditorViewModel.evaluateToCell: same shape as
`evaluateNotebook`, dispatching `evalToCell` for the given cell. -/
def Editor.evaluateToCell (ed : Editor) (cell : Cell) :
    Editor × List EngineCmd :=
  if ¬ed.checkCanEvaluateNotebook then (ed, [])
  else
    match ed.notebook with
    | none => (ed, [])
    | some nb =>
      if nb.executing then
        ({ ed with notebook := some nb.notifyCodeEvalComplete },
         [EngineCmd.stopEvaluation nb.instanceId])
      else
        ({ ed with notebook := some nb.notifyCodeEvalStarted },
         [EngineCmd.evalToCell nb.instanceId cell.id])

/-- NotebookEditorViewModel.evaluateSingleCell: as `evaluateToCell`,
except that after the executing check a non-code cell is rejected with a
warning before anything is dispatched. -/
def Editor.evaluateSingleCell (ed : Editor) (cell : Cell) :
    Editor × List EngineCmd :=
  if ¬ed.checkCanEvaluateNotebook then (ed, [])
  else
    match ed.notebook with
    | none => (ed, [])
    | some nb =>
      if nb.executing then
        ({ ed with notebook := some nb.notifyCodeEvalComplete },
         [EngineCmd.stopEvaluation nb.instanceId])
      else if ¬cell.cellType = CellType.code then (ed, [])
      else
        ({ ed with notebook := some nb.notifyCodeEvalStarted },
         [EngineCmd.evalSingleCell nb.instanceId cell.id])

/-- Modelled from the spec: `CodeCellViewModel.addError` (code-cell.ts is
not in the source tree) appends to the cell's ordered error sequence.
The source's `reportError` calls it through an unchecked cast, so the
model makes it total over cells. -/
def Cell.addError (c : Cell) (error : String) : Cell :=
  { c with errors := c.errors ++ [error] }

/-- Adds an error to the cell at position `i`, leaving the rest alone:
the effect of `cell.addError(...)` on the cell object found inside the
notebook's cells array. -/
def attachErrorAt : List Cell → Nat → String → List Cell
  | [], _, _ => []
  | c :: rest, 0, error => c.addError error :: rest
  | c :: rest, i + 1, error => c :: attachErrorAt rest i error

/-- The fallback loop of `reportError`: walk the cells in document order
and add the error to the first code cell; `none` when there is no code
cell. -/
def attachToFirstCodeCell (cells : List Cell) (error : String) :
    Option (List Cell) :=
  match cells with
  | [] => none
  | c :: rest =>
    if c.cellType = CellType.code then some (c.addError error :: rest)
    else (attachToFirstCodeCell rest error).map (c :: ·)

/-- The cell `reportError` routes to:
`const cell = cellId && this.notebook!.findCell(cellId)` — an absent or
empty (falsy) id skips the lookup. -/
def routeCellIndex (cells : List Cell) (cellId : Option String) :
    Option Nat :=
  match cellId with
  | none => none
  | some cid => if cid = "" then none else findCellIndexList cells cid

/-- NotebookEditorViewModel.reportError, acting on the open notebook's
cells: attach the error to the named cell when the (truthy) id is found;
otherwise fall back to the first code cell; otherwise only log it as
unrouted (the returned flag). -/
def reportError (cells : List Cell) (cellId : Option String)
    (error : String) : List Cell × Bool :=
  match routeCellIndex cells cellId with
  | some i => (attachErrorAt cells i error, false)
  | none =>
    match attachToFirstCodeCell cells error with
    | some cells2 => (cells2, false)
    | none => (cells, true)

/-- A concrete code cell, used to instantiate proved theorems. -/
def cellA : Cell :=
  { id := "a", cellType := CellType.code, text := "1 + 1",
    executing := false, errors := [] }

/-- A concrete markdown cell, used to instantiate proved theorems. -/
def cellB : Cell :=
  { id := "b", cellType := CellType.markdown, text := "hello",
    executing := false, errors := [] }

/-- A concrete code cell whose id is absent from the sample notebooks. -/
def cellC : Cell :=
  { id := "c", cellType := CellType.code, text := "2 + 2",
    executing := false, errors := [] }

/-- A concrete empty, never-saved notebook. -/
def nbEmpty : Notebook :=
  mkNotebook "untitled" "inst-1" none "javascript" [] none true false "v16"

/-- A concrete saved notebook holding `cellA` and `cellB`. -/
def nbAB : Notebook :=
  mkNotebook "file-1" "inst-2" (some "v12") "javascript" [cellA, cellB]
    none false false "v16"

/-- A concrete notebook whose language is the empty string (the sample
notebooks of the test suite are constructed exactly like this). -/
def nbNoLang : Notebook :=
  mkNotebook "file-2" "inst-3" none "" [cellA] none false false "v16"

/-- A concrete version-2 document: `language`/`cells` live in the
`sheet` wrapper and are both absent. -/
def docV2 : SerializedNotebook :=
  { version := 2, nodejs := some "v10", language := none,
    description := none, cells := none,
    sheet := some { language := none, cells := none } }

/-- A concrete version-3 flat document with an empty `language` and
absent `cells`. -/
def docV3 : SerializedNotebook :=
  { version := 3, nodejs := none, language := some "",
    description := none, cells := none, sheet := none }

/-- A concrete notebook that is both never-saved and read-only. -/
def nbROUnsaved : Notebook :=
  mkNotebook "file-3" "inst-4" none "javascript" [] none true true "v16"

/-- The two-cell sample notebook in the middle of an evaluation. -/
def nbExec : Notebook :=
  { nbAB with executing := true }

/-- A concrete editor that is busy with a global task while its open
notebook is executing. -/
def edBusy : Editor :=
  { notebook := some nbExec, working := 1 }

/-- A concrete idle editor whose open notebook is executing. -/
def edIdle : Editor :=
  { notebook := some nbExec, working := 0 }

/-- A concrete cell sequence whose first code cell sits behind a
markdown cell. -/
def cellsBA : List Cell :=
  [cellB, cellA]

end DataForge

namespace DataForge

/-- Length of a splice insertion at an in-range index. -/
theorem spliceIn_length (i : Nat) (L : List α) (c : α)
    (h : i ≤ L.length) :
    (L.take i ++ c :: L.drop i).length = L.length + 1 := by
  simp only [List.length_append, List.length_take, List.length_cons,
    List.length_drop]
  omega

/-- Splice insertion keeps the elements strictly before the insertion
point at their positions. -/
theorem spliceIn_getElem?_lt :
    ∀ (i : Nat) (L : List α) (c : α) (j : Nat), j < i → i ≤ L.length →
      (L.take i ++ c :: L.drop i)[j]? = L[j]?
  | 0, _, _, j, hj, _ => absurd hj (Nat.not_lt_zero j)
  | i + 1, [], _, _, _, h => absurd h (Nat.not_succ_le_zero i)
  | i + 1, a :: L, c, 0, _, _ => by simp
  | i + 1, a :: L, c, j + 1, hj, h => by
    simpa using spliceIn_getElem?_lt i L c j (Nat.lt_of_succ_lt_succ hj)
      (Nat.le_of_succ_le_succ h)

/-- Splice insertion places the new element at the insertion index. -/
theorem spliceIn_getElem?_self :
    ∀ (i : Nat) (L : List α) (c : α), i ≤ L.length →
      (L.take i ++ c :: L.drop i)[i]? = some c
  | 0, _, _, _ => by simp
  | i + 1, [], _, h => absurd h (Nat.not_succ_le_zero i)
  | i + 1, a :: L, c, h => by
    simpa using spliceIn_getElem?_self i L c (Nat.le_of_succ_le_succ h)

/-- Splice insertion shifts the elements at and after the insertion
point up by one position. -/
theorem spliceIn_getElem?_ge :
    ∀ (i : Nat) (L : List α) (c : α) (j : Nat), i ≤ j → i ≤ L.length →
      (L.take i ++ c :: L.drop i)[j + 1]? = L[j]?
  | 0, L, c, j, _, _ => by simp
  | i + 1, [], _, _, _, h => absurd h (Nat.not_succ_le_zero i)
  | i + 1, a :: L, c, 0, hj, _ => absurd hj (Nat.not_succ_le_zero i)
  | i + 1, a :: L, c, j + 1, hj, h => by
    simpa using spliceIn_getElem?_ge i L c j (Nat.le_of_succ_le_succ hj)
      (Nat.le_of_succ_le_succ h)

/-- C1: for every 3-element cell sequence `[A,B,C]`, `moveCell` has
splice-out-then-splice-in semantics: `moveCell 0 2` yields `[B,C,A]`,
`moveCell 2 0` yields `[C,A,B]`, `moveCell 0 1` yields `[B,A,C]`; and
`moveCell src dst` followed by `moveCell dst src` is not guaranteed to be
the identity permutation for `src ≠ dst` (witnessed with a destination
index at the array length, where the reverse move splices from beyond the
end). -/
theorem moveCell_spec :
    (∀ (β : Type) (A B C : β),
      moveCell [some A, some B, some C] 0 2 = [some B, some C, some A] ∧
      moveCell [some A, some B, some C] 2 0 = [some C, some A, some B] ∧
      moveCell [some A, some B, some C] 0 1 = [some B, some A, some C]) ∧
    (∃ (cells : List (Option Nat)) (src dst : Nat), src ≠ dst ∧
      moveCell (moveCell cells src dst) dst src ≠ cells) := by
  constructor
  · intro β A B C
    refine ⟨rfl, rfl, rfl⟩
  · exact ⟨[some 0, some 1, some 2], 0, 3, by decide, by decide⟩

/-- C2: for every cell sequence of length `len` and every index
`0 ≤ i ≤ len`, `addCell cell i` succeeds and yields a sequence of length
`len + 1` with the new cell at position `i`, the cells before `i`
unmoved, and the cells from `i` on shifted up by one (original relative
order preserved). -/
theorem addCell_in_range (nb : Notebook) (c : Cell) (i : Nat)
    (h : i ≤ nb.cells.length) :
    (nb.addCell c i).2 = none ∧
    (nb.addCell c i).1.cells.length = nb.cells.length + 1 ∧
    ((nb.addCell c i).1.cells)[i]? = some c ∧
    (∀ j, j < i → ((nb.addCell c i).1.cells)[j]? = nb.cells[j]?) ∧
    (∀ j, i ≤ j → ((nb.addCell c i).1.cells)[j + 1]? = nb.cells[j]?) := by
  have hno : ¬ i > (nb.hookCellEvents c).cells.length := by
    simp only [Notebook.hookCellEvents]
    omega
  have hres : nb.addCell c i =
      ({ nb.hookCellEvents c with
          cells := nb.cells.take i ++ c :: nb.cells.drop i,
          modified := true }, none) := by
    simp [Notebook.addCell, hno, Notebook.hookCellEvents]
    omega
  refine ⟨by rw [hres], ?_, ?_, ?_, ?_⟩
  · rw [hres]
    exact spliceIn_length i nb.cells c h
  · rw [hres]
    exact spliceIn_getElem?_self i nb.cells c h
  · intro j hj
    rw [hres]
    exact spliceIn_getElem?_lt i nb.cells c j hj h
  · intro j hj
    rw [hres]
    exact spliceIn_getElem?_ge i nb.cells c j hj h

/-- Witness: `addCell_in_range` instantiated on the two-cell sample
notebook at index 1. -/
theorem addCell_in_range_witness :
    (nbAB.addCell cellC 1).2 = none ∧
    (nbAB.addCell cellC 1).1.cells.length = nbAB.cells.length + 1 ∧
    ((nbAB.addCell cellC 1).1.cells)[1]? = some cellC :=
  ⟨(addCell_in_range nbAB cellC 1 (by decide)).1,
   (addCell_in_range nbAB cellC 1 (by decide)).2.1,
   (addCell_in_range nbAB cellC 1 (by decide)).2.2.1⟩

/-- C3 counterexample: adding a cell at index 1 to the empty sample
notebook fails with `OutOfRange` and leaves the cell sequence unchanged,
but observable state has been altered: the rejected cell's events were
hooked before the bounds check ran. -/
theorem addCell_out_of_range_counterexample :
    (nbEmpty.addCell cellA 1).2 = some NbError.outOfRange ∧
    (nbEmpty.addCell cellA 1).1.cells = nbEmpty.cells ∧
    (nbEmpty.addCell cellA 1).1.hookedCells ≠ nbEmpty.hookedCells := by
  decide

/-- C3 amended: for every index `i > len(cells)`, `addCell cell i` fails
with an `OutOfRange` error, the cell sequence and the modified flag are
unchanged, but the rejected cell's events have been hooked (the source
hooks them before it validates the index). -/
theorem addCell_out_of_range (nb : Notebook) (c : Cell) (i : Nat)
    (h : i > nb.cells.length) :
    (nb.addCell c i).2 = some NbError.outOfRange ∧
    (nb.addCell c i).1.cells = nb.cells ∧
    (nb.addCell c i).1.modified = nb.modified ∧
    (nb.addCell c i).1.hookedCells = nb.hookedCells ++ [c.id] := by
  simp [Notebook.addCell, Notebook.hookCellEvents, h]

/-- Witness: `addCell_out_of_range` instantiated on the empty sample
notebook at index 1. -/
theorem addCell_out_of_range_witness :
    (nbEmpty.addCell cellA 1).2 = some NbError.outOfRange ∧
    (nbEmpty.addCell cellA 1).1.cells = nbEmpty.cells ∧
    (nbEmpty.addCell cellA 1).1.modified = nbEmpty.modified ∧
    (nbEmpty.addCell cellA 1).1.hookedCells =
      nbEmpty.hookedCells ++ [cellA.id] :=
  addCell_out_of_range nbEmpty cellA 1 (by decide)

/-- C4: when the given cell's id occurs exactly once in the notebook
(cell ids are unique by the spec's invariant), `deleteCell` succeeds and
removes exactly that element, keeping every other cell in its original
relative order; when the id is absent, `deleteCell` fails with `NotFound`
and leaves the cell sequence unchanged. -/
theorem deleteCell_spec :
    (∀ (nb : Notebook) (cell target : Cell) (sel : Bool)
       (l1 l2 : List Cell),
      nb.cells = l1 ++ target :: l2 →
      target.id = cell.id →
      cell.id ∉ (l1 ++ l2).map Cell.id →
      (nb.deleteCell cell sel).2 = none ∧
      (nb.deleteCell cell sel).1.cells = l1 ++ l2) ∧
    (∀ (nb : Notebook) (cell : Cell) (sel : Bool),
      cell.id ∉ nb.cells.map Cell.id →
      (nb.deleteCell cell sel).2 = some NbError.notFound ∧
      (nb.deleteCell cell sel).1.cells = nb.cells) := by
  constructor
  · intro nb cell target sel l1 l2 hcells hid hnotin
    have hl1 : ∀ a ∈ l1, ¬a.id = cell.id := by
      intro a ha heq
      exact hnotin (by
        rw [List.mem_map]
        exact ⟨a, List.mem_append_left l2 ha, heq⟩)
    have hl2 : ∀ a ∈ l2, ¬a.id = cell.id := by
      intro a ha heq
      exact hnotin (by
        rw [List.mem_map]
        exact ⟨a, List.mem_append_right l1 ha, heq⟩)
    have hfilpos : nb.cells.filter (fun c => c.id = cell.id) = [target] := by
      rw [hcells, List.filter_append,
        List.filter_cons_of_pos (by simpa using hid),
        List.filter_eq_nil_iff.mpr (by simpa using hl1),
        List.filter_eq_nil_iff.mpr (by simpa using hl2)]
      rfl
    have hfilneg :
        nb.cells.filter (fun c => !decide (c.id = cell.id)) = l1 ++ l2 := by
      rw [hcells, List.filter_append,
        List.filter_cons_of_neg (by simp [hid]),
        List.filter_eq_self.mpr (by simpa using hl1),
        List.filter_eq_self.mpr (by simpa using hl2)]
    simp [Notebook.deleteCell, hfilpos, hfilneg, Notebook.unhookCellEvents]
  · intro nb cell sel hnotin
    have hfil : nb.cells.filter (fun c => c.id = cell.id) = [] := by
      refine List.filter_eq_nil_iff.mpr ?_
      intro a ha
      simp only [decide_eq_true_eq]
      intro heq
      exact hnotin (by
        rw [List.mem_map]
        exact ⟨a, ha, heq⟩)
    simp [Notebook.deleteCell, hfil]

/-- Witness: `deleteCell_spec` instantiated on the two-cell sample
notebook, deleting the present `cellA` and the absent `cellC`. -/
theorem deleteCell_spec_witness :
    ((nbAB.deleteCell cellA true).2 = none ∧
     (nbAB.deleteCell cellA true).1.cells = [cellB]) ∧
    ((nbAB.deleteCell cellC true).2 = some NbError.notFound ∧
     (nbAB.deleteCell cellC true).1.cells = nbAB.cells) :=
  ⟨deleteCell_spec.1 nbAB cellA cellA true [] [cellB] (by decide) rfl
      (by decide),
   deleteCell_spec.2 nbAB cellC true (by decide)⟩

/-- C5 counterexample: the round trip does not reproduce the language of
a notebook whose language is the empty string — serialization keeps the
empty string and deserialization replaces it (a falsy value) with the
`"javascript"` default. -/
theorem serialize_roundtrip_counterexample :
    (Notebook.deserialize "file-2" "inst-9" false false
        nbNoLang.defaultNodejsVersion nbNoLang.serialize).language ≠
      nbNoLang.language := by
  decide

/-- C5 amended: for every notebook whose language is nonempty,
deserializing the document produced by `serialize` (with the same
injected default Node.js version) reproduces the same language, the same
raw `nodejsVersion` and hence the same effective `getNodejsVersion`
(the injected default when unset), and the same cell sequence by id,
type and content. -/
theorem serialize_roundtrip (nb : Notebook) (sid iid : String)
    (u r : Bool) (h : nb.language ≠ "") :
    let nb' := Notebook.deserialize sid iid u r nb.defaultNodejsVersion
      nb.serialize
    nb'.language = nb.language ∧
    nb'.nodejsVersion = nb.nodejsVersion ∧
    nb'.getNodejsVersion = nb.getNodejsVersion ∧
    nb'.cells.map (fun c => (c.id, c.cellType, c.text)) =
      nb.cells.map (fun c => (c.id, c.cellType, c.text)) := by
  have hfac : ∀ c : Cell,
      cellViewModelFactory (Cell.serialize c) = { c with executing := false } := by
    intro c
    cases hct : c.cellType <;>
      simp [cellViewModelFactory, Cell.serialize, Cell.deserialize, hct]
  refine ⟨?_, ?_, ?_, ?_⟩
  · simp [Notebook.deserialize, Notebook.serialize, mkNotebook, jsOr, h]
  · simp [Notebook.deserialize, Notebook.serialize, mkNotebook]
  · simp [Notebook.deserialize, Notebook.serialize, mkNotebook,
      Notebook.getNodejsVersion]
  · simp [Notebook.deserialize, Notebook.serialize, mkNotebook,
      List.map_map, Function.comp, hfac]

/-- Witness: `serialize_roundtrip` instantiated on the two-cell sample
notebook. -/
theorem serialize_roundtrip_witness :
    (Notebook.deserialize "file-9" "inst-9" false false
        nbAB.defaultNodejsVersion nbAB.serialize).language =
      nbAB.language ∧
    (Notebook.deserialize "file-9" "inst-9" false false
        nbAB.defaultNodejsVersion nbAB.serialize).nodejsVersion =
      nbAB.nodejsVersion ∧
    (Notebook.deserialize "file-9" "inst-9" false false
        nbAB.defaultNodejsVersion nbAB.serialize).getNodejsVersion =
      nbAB.getNodejsVersion ∧
    (Notebook.deserialize "file-9" "inst-9" false false
        nbAB.defaultNodejsVersion nbAB.serialize).cells.map
        (fun c => (c.id, c.cellType, c.text)) =
      nbAB.cells.map (fun c => (c.id, c.cellType, c.text)) :=
  serialize_roundtrip nbAB "file-9" "inst-9" false false (by decide)

/-- C6: deserialization of both shapes — version-2 documents with a
`sheet` wrapper and version-3 flat documents — always succeeds (it is a
total function) and applies the defaults: an absent or empty `language`
yields `"javascript"` and an absent `cells` field yields the empty cell
sequence. -/
theorem deserialize_defaults :
    (∀ (sid iid : String) (u r : Bool) (d : String)
       (input : SerializedNotebook) (sheet : Sheet),
      input.sheet = some sheet →
      ((sheet.language = none ∨ sheet.language = some "") →
        (Notebook.deserialize sid iid u r d input).language =
          "javascript") ∧
      (sheet.cells = none →
        (Notebook.deserialize sid iid u r d input).cells = [])) ∧
    (∀ (sid iid : String) (u r : Bool) (d : String)
       (input : SerializedNotebook),
      input.sheet = none →
      ((input.language = none ∨ input.language = some "") →
        (Notebook.deserialize sid iid u r d input).language =
          "javascript") ∧
      (input.cells = none →
        (Notebook.deserialize sid iid u r d input).cells = [])) := by
  constructor
  · intro sid iid u r d input sheet hsheet
    constructor
    · rintro (hl | hl) <;>
        simp [Notebook.deserialize, mkNotebook, jsOr, hsheet, hl]
    · intro hc
      simp [Notebook.deserialize, mkNotebook, hsheet, hc]
  · intro sid iid u r d input hsheet
    constructor
    · rintro (hl | hl) <;>
        simp [Notebook.deserialize, mkNotebook, jsOr, hsheet, hl]
    · intro hc
      simp [Notebook.deserialize, mkNotebook, hsheet, hc]

/-- Witness: `deserialize_defaults` instantiated on the sample version-2
and version-3 documents. -/
theorem deserialize_defaults_witness :
    ((Notebook.deserialize "s" "i" true false "v16" docV2).language =
        "javascript" ∧
     (Notebook.deserialize "s" "i" true false "v16" docV2).cells = []) ∧
    ((Notebook.deserialize "s" "i" true false "v16" docV3).language =
        "javascript" ∧
     (Notebook.deserialize "s" "i" true false "v16" docV3).cells = []) :=
  ⟨⟨(deserialize_defaults.1 "s" "i" true false "v16" docV2
        { language := none, cells := none } rfl).1 (Or.inl rfl),
    (deserialize_defaults.1 "s" "i" true false "v16" docV2
        { language := none, cells := none } rfl).2 rfl⟩,
   ⟨(deserialize_defaults.2 "s" "i" true false "v16" docV3 rfl).1
      (Or.inr rfl),
    (deserialize_defaults.2 "s" "i" true false "v16" docV3 rfl).2 rfl⟩⟩

/-- C7 counterexample: on a notebook that is both never-saved and
read-only, `save` fails with `ReadOnlyViolation` — not with `NeverSaved`
as the claim's first conjunct requires for every notebook with
`unsaved == true` (the source checks the read-only guard first). -/
theorem save_guards_counterexample :
    nbROUnsaved.unsaved = true ∧
    (nbROUnsaved.save true).2 = some NbError.readOnlyViolation ∧
    (nbROUnsaved.save true).2 ≠ some NbError.neverSaved := by
  decide

/-- C7 amended: `save` fails with `ReadOnlyViolation` whenever
`readOnly == true`; it fails with `NeverSaved` whenever `unsaved == true`
and the notebook is not read-only (the read-only guard is checked
first); and `saveAs` with a successful storage write clears `unsaved`
and `readOnly` and rebinds `storageId` to the new storage id. -/
theorem save_guards (nb : Notebook) (w : Bool) (newId : String) :
    (nb.readOnly = true →
      (nb.save w).2 = some NbError.readOnlyViolation ∧
      (nb.save w).1 = nb) ∧
    (nb.readOnly = false → nb.unsaved = true →
      (nb.save w).2 = some NbError.neverSaved ∧ (nb.save w).1 = nb) ∧
    ((nb.saveAs newId true).2 = none ∧
     (nb.saveAs newId true).1.unsaved = false ∧
     (nb.saveAs newId true).1.readOnly = false ∧
     (nb.saveAs newId true).1.storageId = newId) := by
  refine ⟨?_, ?_, ?_⟩
  · intro hro
    simp [Notebook.save, hro]
  · intro hro hun
    simp [Notebook.save, hro, hun]
  · simp [Notebook.saveAs, Notebook.internalSave]

/-- Witness: `save_guards` instantiated on the read-only sample notebook
and on the never-saved (writable) empty sample notebook. -/
theorem save_guards_witness :
    ((nbROUnsaved.save true).2 = some NbError.readOnlyViolation ∧
     (nbROUnsaved.save true).1 = nbROUnsaved) ∧
    ((nbEmpty.save true).2 = some NbError.neverSaved ∧
     (nbEmpty.save true).1 = nbEmpty) ∧
    ((nbAB.saveAs "file-new" true).2 = none ∧
     (nbAB.saveAs "file-new" true).1.unsaved = false ∧
     (nbAB.saveAs "file-new" true).1.readOnly = false ∧
     (nbAB.saveAs "file-new" true).1.storageId = "file-new") :=
  ⟨(save_guards nbROUnsaved true "x").1 (by decide),
   (save_guards nbEmpty true "x").2.1 (by decide) (by decide),
   (save_guards nbAB true "file-new").2.2⟩

/-- C10: `saveAs` is atomic with respect to the notebook state — when
the storage write fails, the failure propagates and `unsaved`,
`readOnly` and `storageId` (indeed the whole state) retain their prior
values; the flags are flipped and the storage id rebound only on the
success path. -/
theorem saveAs_write_failure_atomic (nb : Notebook) (newId : String) :
    (nb.saveAs newId false).2 = some NbError.ioError ∧
    (nb.saveAs newId false).1.unsaved = nb.unsaved ∧
    (nb.saveAs newId false).1.readOnly = nb.readOnly ∧
    (nb.saveAs newId false).1.storageId = nb.storageId ∧
    (nb.saveAs newId false).1 = nb := by
  simp [Notebook.saveAs, Notebook.internalSave]

/-- C8 counterexample: an open, non-read-only, executing notebook in a
busy editor (`working > 0`): invoking evaluate issues no engine command
at all — no stop signal, no completion — so the claim as stated (which
omits the not-busy precondition shared by every evaluate operation)
fails. -/
theorem evaluate_while_executing_counterexample :
    edBusy.notebook = some nbExec ∧
    nbExec.readOnly = false ∧
    nbExec.executing = true ∧
    edBusy.evaluateNotebook.2 = [] ∧
    (edBusy.evaluateNotebook.1.notebook.map Notebook.executing) =
      some true := by
  decide

/-- C8 amended: for every editor that is not busy, with an open,
non-read-only notebook whose `executing == true`, each of the three
evaluate operations issues exactly a `stopEvaluation` command for the
in-flight evaluation — never a second evaluation dispatch — and
synthesizes the completion locally, so `executing` becomes `false`. -/
theorem evaluate_while_executing (ed : Editor) (nb : Notebook) (c : Cell)
    (hw : ed.working = 0) (hnb : ed.notebook = some nb)
    (hro : nb.readOnly = false) (hex : nb.executing = true) :
    (ed.evaluateNotebook.2 = [EngineCmd.stopEvaluation nb.instanceId] ∧
     (ed.evaluateNotebook.1.notebook.map Notebook.executing) =
       some false) ∧
    ((ed.evaluateToCell c).2 =
       [EngineCmd.stopEvaluation nb.instanceId] ∧
     ((ed.evaluateToCell c).1.notebook.map Notebook.executing) =
       some false) ∧
    ((ed.evaluateSingleCell c).2 =
       [EngineCmd.stopEvaluation nb.instanceId] ∧
     ((ed.evaluateSingleCell c).1.notebook.map Notebook.executing) =
       some false) := by
  have hcheck : ed.checkCanEvaluateNotebook = true := by
    simp [Editor.checkCanEvaluateNotebook, Editor.isWorking, hw, hnb, hro]
  refine ⟨?_, ?_, ?_⟩ <;>
    simp [Editor.evaluateNotebook, Editor.evaluateToCell,
      Editor.evaluateSingleCell, hcheck, hnb, hex,
      Notebook.notifyCodeEvalComplete]

/-- Witness: `evaluate_while_executing` instantiated on the idle sample
editor whose open notebook is executing. -/
theorem evaluate_while_executing_witness :
    (edIdle.evaluateNotebook.2 =
       [EngineCmd.stopEvaluation nbExec.instanceId] ∧
     (edIdle.evaluateNotebook.1.notebook.map Notebook.executing) =
       some false) ∧
    ((edIdle.evaluateToCell cellA).2 =
       [EngineCmd.stopEvaluation nbExec.instanceId] ∧
     ((edIdle.evaluateToCell cellA).1.notebook.map Notebook.executing) =
       some false) ∧
    ((edIdle.evaluateSingleCell cellA).2 =
       [EngineCmd.stopEvaluation nbExec.instanceId] ∧
     ((edIdle.evaluateSingleCell cellA).1.notebook.map
        Notebook.executing) = some false) :=
  evaluate_while_executing edIdle nbExec cellA rfl rfl (by decide)
    (by decide)

/-- The linear scan finds a cell carrying exactly the id it was asked
for. -/
theorem findCellIndexList_getElem :
    ∀ (cells : List Cell) (cid : String) (i : Nat),
      findCellIndexList cells cid = some i →
      ∃ c, cells[i]? = some c ∧ c.id = cid
  | [], cid, i, h => by simp [findCellIndexList] at h
  | c :: rest, cid, i, h => by
    by_cases hc : c.id = cid
    · simp [findCellIndexList, hc] at h
      exact ⟨c, by simp [← h], hc⟩
    · simp [findCellIndexList, hc] at h
      obtain ⟨i', hi', rfl⟩ := h
      obtain ⟨c', hc', hid⟩ := findCellIndexList_getElem rest cid i' hi'
      exact ⟨c', by simpa using hc', hid⟩

/-- `attachErrorAt` appends the error to the cell at the target
position. -/
theorem attachErrorAt_self :
    ∀ (cells : List Cell) (i : Nat) (err : String) (c : Cell),
      cells[i]? = some c →
      (attachErrorAt cells i err)[i]? = some (c.addError err)
  | [], i, err, c, h => by simp at h
  | c0 :: rest, 0, err, c, h => by
    simp at h
    simp [attachErrorAt, h]
  | c0 :: rest, i + 1, err, c, h => by
    simp at h
    simpa [attachErrorAt] using attachErrorAt_self rest i err c h

/-- `attachErrorAt` leaves every other position untouched. -/
theorem attachErrorAt_ne :
    ∀ (cells : List Cell) (i : Nat) (err : String) (j : Nat), j ≠ i →
      (attachErrorAt cells i err)[j]? = cells[j]?
  | [], _, _, _, _ => by simp [attachErrorAt]
  | c0 :: rest, 0, err, 0, h => absurd rfl h
  | c0 :: rest, 0, err, j + 1, _ => by simp [attachErrorAt]
  | c0 :: rest, i + 1, err, 0, _ => by simp [attachErrorAt]
  | c0 :: rest, i + 1, err, j + 1, h => by
    simpa [attachErrorAt] using
      attachErrorAt_ne rest i err j (fun hji => h (by omega))

/-- When the cell at position `k` is the first code cell (everything
before it is markdown), the fallback loop attaches the error exactly
there. -/
theorem attachToFirstCodeCell_spec :
    ∀ (cells : List Cell) (err : String) (k : Nat) (c : Cell),
      cells[k]? = some c → c.cellType = CellType.code →
      (∀ j cj, j < k → cells[j]? = some cj →
        cj.cellType = CellType.markdown) →
      ∃ l, attachToFirstCodeCell cells err = some l ∧
        l[k]? = some (c.addError err) ∧
        (∀ j, j ≠ k → l[j]? = cells[j]?)
  | [], err, k, c, h, _, _ => by simp at h
  | c0 :: rest, err, 0, c, h, hcode, _ => by
    simp at h
    subst h
    refine ⟨c0.addError err :: rest, ?_, by simp, ?_⟩
    · simp [attachToFirstCodeCell, hcode]
    · intro j hj
      cases j with
      | zero => exact absurd rfl hj
      | succ j' => simp
  | c0 :: rest, err, k + 1, c, h, hcode, hbefore => by
    have hc0 : c0.cellType = CellType.markdown :=
      hbefore 0 c0 (Nat.succ_pos k) (by simp)
    have hc0ne : ¬c0.cellType = CellType.code := by
      rw [hc0]
      intro hcontra
      exact CellType.noConfusion hcontra
    simp at h
    obtain ⟨l', hl', hself, hne⟩ :=
      attachToFirstCodeCell_spec rest err k c h hcode
        (fun j cj hj hcj =>
          hbefore (j + 1) cj (Nat.succ_lt_succ hj) (by simpa using hcj))
    refine ⟨c0 :: l', ?_, by simpa using hself, ?_⟩
    · simp [attachToFirstCodeCell, hc0ne, hl']
    · intro j hj
      cases j with
      | zero => simp
      | succ j' => simpa using hne j' (fun h' => hj (by omega))

/-- With no code cell anywhere, the fallback loop finds nothing. -/
theorem attachToFirstCodeCell_none :
    ∀ (cells : List Cell) (err : String),
      (∀ c ∈ cells, c.cellType = CellType.markdown) →
      attachToFirstCodeCell cells err = none
  | [], _, _ => rfl
  | c :: rest, err, h => by
    have hc : c.cellType = CellType.markdown := h c (by simp)
    have hcne : ¬c.cellType = CellType.code := by
      rw [hc]
      intro hcontra
      exact CellType.noConfusion hcontra
    have hrest := attachToFirstCodeCell_none rest err
      (fun x hx => h x (by simp [hx]))
    simp [attachToFirstCodeCell, hcne, hrest]

/-- C9: error routing of a `receive-error` event.  First conjunct: a
given (truthy, per the source's falsiness test) cell id that the linear
scan finds routes the error to exactly that cell, everything else
untouched and nothing logged.  Second conjunct: with no id given or the
id unfindable, the error goes to the first code cell in document order.
Third conjunct: with no route and no code cell at all, the error is only
logged as unrouted and no cell is mutated. -/
theorem reportError_routing :
    (∀ (cells : List Cell) (cid err : String) (i : Nat) (c : Cell),
      cid ≠ "" → findCellIndexList cells cid = some i →
      cells[i]? = some c →
      (reportError cells (some cid) err).2 = false ∧
      c.id = cid ∧
      ((reportError cells (some cid) err).1)[i]? =
        some (c.addError err) ∧
      (∀ j, j ≠ i →
        ((reportError cells (some cid) err).1)[j]? = cells[j]?)) ∧
    (∀ (cells : List Cell) (cellId : Option String) (err : String)
       (k : Nat) (c : Cell),
      routeCellIndex cells cellId = none →
      cells[k]? = some c → c.cellType = CellType.code →
      (∀ j cj, j < k → cells[j]? = some cj →
        cj.cellType = CellType.markdown) →
      (reportError cells cellId err).2 = false ∧
      ((reportError cells cellId err).1)[k]? = some (c.addError err) ∧
      (∀ j, j ≠ k →
        ((reportError cells cellId err).1)[j]? = cells[j]?)) ∧
    (∀ (cells : List Cell) (cellId : Option String) (err : String),
      routeCellIndex cells cellId = none →
      (∀ c ∈ cells, c.cellType = CellType.markdown) →
      (reportError cells cellId err).1 = cells ∧
      (reportError cells cellId err).2 = true) := by
  refine ⟨?_, ?_, ?_⟩
  · intro cells cid err i c hne hfind hget
    have hroute : routeCellIndex cells (some cid) = some i := by
      simp [routeCellIndex, hne, hfind]
    have hrep : reportError cells (some cid) err =
        (attachErrorAt cells i err, false) := by
      simp [reportError, hroute]
    obtain ⟨c', hc', hid⟩ := findCellIndexList_getElem cells cid i hfind
    have hcc : c' = c := Option.some.inj (hc'.symm.trans hget)
    refine ⟨by rw [hrep], hcc ▸ hid, ?_, ?_⟩
    · rw [hrep]
      exact attachErrorAt_self cells i err c hget
    · intro j hj
      rw [hrep]
      exact attachErrorAt_ne cells i err j hj
  · intro cells cellId err k c hroute hget hcode hbefore
    obtain ⟨l, hl, hself, hne⟩ :=
      attachToFirstCodeCell_spec cells err k c hget hcode hbefore
    have hrep : reportError cells cellId err = (l, false) := by
      simp [reportError, hroute, hl]
    exact ⟨by rw [hrep], by rw [hrep]; exact hself,
      fun j hj => by rw [hrep]; exact hne j hj⟩
  · intro cells cellId err hroute hmd
    have hnone := attachToFirstCodeCell_none cells err hmd
    simp [reportError, hroute, hnone]

/-- Witness: `reportError_routing` instantiated on the sample cell
sequence `[cellB (markdown), cellA (code)]` — routing by the id `"a"`,
routing with no id to the first code cell, and the unrouted case on a
markdown-only sequence. -/
theorem reportError_routing_witness :
    ((reportError cellsBA (some "a") "boom").2 = false ∧
     ((reportError cellsBA (some "a") "boom").1)[1]? =
       some (cellA.addError "boom")) ∧
    ((reportError cellsBA none "boom").2 = false ∧
     ((reportError cellsBA none "boom").1)[1]? =
       some (cellA.addError "boom")) ∧
    ((reportError [cellB] none "boom").1 = [cellB] ∧
     (reportError [cellB] none "boom").2 = true) :=
  ⟨⟨(reportError_routing.1 cellsBA "a" "boom" 1 cellA (by decide)
        (by decide) (by decide)).1,
    (reportError_routing.1 cellsBA "a" "boom" 1 cellA (by decide)
        (by decide) (by decide)).2.2.1⟩,
   ⟨(reportError_routing.2.1 cellsBA none "boom" 1 cellA rfl (by decide)
        (by decide) (by
          intro j cj hj hcj
          have hj0 : j = 0 := by omega
          subst hj0
          simp [cellsBA] at hcj
          simp [← hcj, cellB])).1,
    (reportError_routing.2.1 cellsBA none "boom" 1 cellA rfl (by decide)
        (by decide) (by
          intro j cj hj hcj
          have hj0 : j = 0 := by omega
          subst hj0
          simp [cellsBA] at hcj
          simp [← hcj, cellB])).2.1⟩,
   reportError_routing.2.2 [cellB] none "boom" rfl (by decide)⟩

end DataForge
